import Mathlib

/-!
Shallow embedding of the Fantasy Football Fix parser
(`players.py`, `teams.py`, `functions/auth.py`, `functions/format.py`,
`functions/statistic.py`).

Python dictionaries are modelled as association lists with first-occurrence
lookup and in-place overwrite on key collision (matching CPython dict
semantics, in which insertion order is preserved and assigning to an
existing key keeps its position).  Python floats are modelled exactly as
rationals; fallible operations return `Option`.
-/

/-- Python values occurring in the parsed JSON records: integers, floats
(modelled exactly as rationals), strings, and the `None` value. -/
inductive PyVal where
  | int (n : Int)
  | float (q : ℚ)
  | str (s : String)
  | none
deriving DecidableEq, Repr

/-- A Python dictionary with string keys, as an ordered association list. -/
abbrev Dict := List (String × PyVal)

/-- First-occurrence lookup, Python's `d[k]` / `d.get(k)`. -/
def dget? {κ ν : Type} [DecidableEq κ] : List (κ × ν) → κ → Option ν
  | [], _ => Option.none
  | (k', v) :: rest, k => if k' = k then Option.some v else dget? rest k

/-- Python's `d[k] = v`: overwrite in place if the key exists, else append. -/
def dinsert {κ ν : Type} [DecidableEq κ] : List (κ × ν) → κ → ν → List (κ × ν)
  | [], k, v => [(k, v)]
  | (k', v') :: rest, k, v =>
      if k' = k then (k, v) :: rest else (k', v') :: dinsert rest k v

/-- Update the value at a key when present, leave the list unchanged otherwise
(the `if key in d: d[key] = f(d[key])` pattern of `validate_player_data`). -/
def dupdate (f : PyVal → PyVal) : Dict → String → Dict
  | [], _ => []
  | (k', v) :: rest, k =>
      if k' = k then (k', f v) :: rest else (k', v) :: dupdate f rest k

/-- Value of decimal digits, most significant first. -/
def digitsToNat (l : List Char) : Nat :=
  l.foldl (fun a c => a * 10 + (c.toNat - 48)) 0

/-- Unsigned decimal literal, optionally with a fractional part
(`"8"`, `"8.5"`, `"8."`, `".5"`). -/
def parseUnsigned? (l : List Char) : Option ℚ :=
  let intPart := l.takeWhile Char.isDigit
  let rest := l.dropWhile Char.isDigit
  match rest with
  | [] => if intPart.isEmpty then Option.none else Option.some (digitsToNat intPart)
  | c :: frac =>
      if c = '.' && frac.all Char.isDigit && (!intPart.isEmpty || !frac.isEmpty) then
        Option.some ((digitsToNat intPart : ℚ) + (digitsToNat frac : ℚ) / 10 ^ frac.length)
      else Option.none

/-- Python's `float(s)` on a string: an optionally signed decimal literal
yields its exact value, anything else raises (here: `Option.none`).  Scientific
notation and special values are outside the data handled by the parser and are
treated as failures. -/
def parseFloat? (s : String) : Option ℚ :=
  match s.data with
  | '-' :: rest => (parseUnsigned? rest).map (fun q => -q)
  | '+' :: rest => parseUnsigned? rest
  | l => parseUnsigned? l

/-- Python's `float(value)`: succeeds on numbers and numeric strings, raises
(`Option.none`) on `None` and non-numeric strings. -/
def toFloat? : PyVal → Option ℚ
  | .int n => Option.some (n : ℚ)
  | .float q => Option.some q
  | .str s => parseFloat? s
  | .none => Option.none

/-- Python truthiness of a value: zero numbers, the empty string and `None`
are falsy. -/
def pyTruthy : PyVal → Bool
  | .int n => n ≠ 0
  | .float q => q ≠ 0
  | .str s => s ≠ ""
  | .none => false

/-- The `value or 0` idiom of `_process_player_data`. -/
def pyOr0 (v : PyVal) : PyVal := if pyTruthy v then v else .int 0

/-- Python `+` on the values that can occur here: numeric addition, string
concatenation; mixing strings with numbers or adding `None` raises
(`Option.none`). -/
def pyAdd : PyVal → PyVal → Option PyVal
  | .int a, .int b => Option.some (.int (a + b))
  | .int a, .float b => Option.some (.float ((a : ℚ) + b))
  | .float a, .int b => Option.some (.float (a + (b : ℚ)))
  | .float a, .float b => Option.some (.float (a + b))
  | .str a, .str b => Option.some (.str (a ++ b))
  | _, _ => Option.none

/-- Round to the nearest integer, ties to even — Python's rounding mode. -/
def roundHalfEven (x : ℚ) : Int :=
  let f := ⌊x⌋
  if x - f < 1 / 2 then f
  else if 1 / 2 < x - f then f + 1
  else if f % 2 = 0 then f else f + 1

/-- Python's `round(x, ndigits)` on an exact value. -/
def pyRound (x : ℚ) (ndigits : Nat) : ℚ :=
  (roundHalfEven (x * 10 ^ ndigits) : ℚ) / 10 ^ ndigits

/-- Python's `str(v)` for the non-string values reaching the formatting
fallbacks.  No claim exercises the float rendering, which is abstracted as the
rational's canonical rendering. -/
def strFallback : PyVal → String
  | .none => ""
  | .str s => s
  | .int n => toString n
  | .float q => toString q

/-- Split a character list on whitespace, Python's `s.split()` before
dropping empty pieces. -/
def splitWsAux : List Char → List Char → List (List Char)
  | [], cur => [cur.reverse]
  | c :: rest, cur =>
      if c.isWhitespace then cur.reverse :: splitWsAux rest []
      else splitWsAux rest (c :: cur)

/-- Join character-list words with single spaces. -/
def joinWithSpace : List (List Char) → List Char
  | [] => []
  | [l] => l
  | l :: ls => l ++ ' ' :: joinWithSpace ls

/-- Python's `s.lower()` (ASCII letters; the data handled here is ASCII). -/
def pyLower (s : String) : String := (s.data.map Char.toLower).asString

/-- Modelled from the spec: `common_modules.clean_text`, the text-cleanup
collaborator (not under `src/`); whitespace runs are collapsed to single
spaces and the ends are trimmed (Python's `" ".join(s.split())`). -/
def clean_text (s : String) : String :=
  (joinWithSpace ((splitWsAux s.data []).filter (fun l => l ≠ []))).asString

/-- Embeds `format.py::format_null_data`'s per-value step: a value that
converts to the number zero becomes the empty string, everything else is
kept. -/
def formatNullVal (v : PyVal) : PyVal :=
  match toFloat? v with
  | Option.some q => if q = 0 then .str "" else v
  | Option.none => v

/-- Embeds `format.py::format_null_data` (lines 17–42). -/
def format_null_data (data : Dict) : Dict :=
  data.map (fun kv => (kv.1, formatNullVal kv.2))

/-- Embeds `format.py::format_position` (lines 45–71) on string input. -/
def format_position (position_id : String) : String :=
  let position_clean := pyLower (clean_text position_id)
  if position_clean = "goalkeeper" then "GK"
  else if position_clean = "defender" then "D"
  else if position_clean = "midfielder" then "M"
  else if position_clean = "forward" then "F"
  else position_id

/-- Embeds `format_position`'s non-string fallback (lines 55–57): non-string
input is stringified. -/
def format_position_any (v : PyVal) : String :=
  match v with
  | .str s => format_position s
  | v => strFallback v

/-- Modelled from the spec: `common_modules.clean_price` (not under `src/`) —
the spec does not detail it beyond price formatting, so it is modelled as
numeric-string conversion, failing on non-numeric input. -/
def clean_price? (s : String) : Option ℚ := parseFloat? s

/-- Embeds `format.py::format_price` (lines 74–97): `None` and conversion
failures become `0.0`, numbers are converted to float, strings go through
`clean_price`. -/
def format_price_val (v : PyVal) : PyVal :=
  match v with
  | .none => .float 0
  | .int n => .float (n : ℚ)
  | .float q => .float q
  | .str s => .float ((clean_price? s).getD 0)

/-- Characters kept by `clean_player_name`'s `re.sub(r"[^\w\s\-']", '', ...)`:
word characters (ASCII), whitespace, hyphen and apostrophe. -/
def keepNameChar (c : Char) : Bool :=
  c.isAlphanum || c = '_' || c.isWhitespace || c = '-' || c = Char.ofNat 39

/-- Embeds `format.py::clean_player_name` (lines 150–171) on string input. -/
def clean_player_name (name : String) : String :=
  ((clean_text name).data.filter keepNameChar).asString

/-- Lifts `clean_player_name` to values (its non-string branch stringifies). -/
def clean_player_name_val (v : PyVal) : PyVal :=
  match v with
  | .str s => .str (clean_player_name s)
  | v => .str (strFallback v)

/-- The static long-name to abbreviation table of
`format.py::format_team_abbreviation` (lines 191–225). -/
def team_map : List (String × String) :=
  [("Arsenal", "ARS"), ("Aston Villa", "AVL"), ("Brighton & Hove Albion", "BHA"),
   ("Brighton", "BHA"), ("Burnley", "BUR"), ("Chelsea", "CHE"),
   ("Crystal Palace", "CRY"), ("Everton", "EVE"), ("Fulham", "FUL"),
   ("Liverpool", "LIV"), ("Luton Town", "LUT"), ("Manchester City", "MCI"),
   ("Manchester United", "MUN"), ("Newcastle United", "NEW"), ("Newcastle", "NEW"),
   ("Nottingham Forest", "NFO"), ("Sheffield United", "SHU"), ("Sheffield Utd", "SHU"),
   ("Tottenham Hotspur", "TOT"), ("Tottenham", "TOT"), ("West Ham United", "WHU"),
   ("West Ham", "WHU"), ("Wolverhampton Wanderers", "WOL"), ("Wolves", "WOL"),
   ("Brentford", "BRE"), ("Leicester City", "LEI"), ("Leicester", "LEI"),
   ("Leeds United", "LEE"), ("Leeds", "LEE"), ("Southampton", "SOU"),
   ("Watford", "WAT"), ("Norwich City", "NOR"), ("Norwich", "NOR")]

/-- Embeds `format.py::format_team_abbreviation` (lines 174–228) on string
input. -/
def format_team_abbreviation (team_name : String) : String :=
  let cleaned := clean_text team_name
  (dget? team_map cleaned).getD cleaned

/-- Lifts `format_team_abbreviation` to values (non-string branch
stringifies). -/
def format_team_abbreviation_val (v : PyVal) : PyVal :=
  match v with
  | .str s => .str (format_team_abbreviation s)
  | v => .str (strFallback v)

/-- Embeds `format.py::validate_player_data` (lines 231–266): clean the name,
the team abbreviation, the position and the price when present, then apply
the null/zero formatting. -/
def validate_player_data (player_data : Dict) : Dict :=
  let d := dupdate clean_player_name_val player_data "known_name"
  let d := dupdate format_team_abbreviation_val d "abbr"
  let d := dupdate (fun v => .str (format_position_any v)) d "position"
  let d := dupdate format_price_val d "price"
  format_null_data d

/-- Embeds `format.py::calculate_expected_goals_involvement` (lines 295–319)
on numeric inputs: absent on a zero team total, otherwise the rounded
percentage. -/
def calculate_expected_goals_involvement (exp_goals exp_assists exp_goals_team : ℚ) :
    Option ℚ :=
  if exp_goals_team = 0 then Option.none
  else Option.some (pyRound ((exp_goals + exp_assists) / exp_goals_team * 100) 2)

/-- Lifts `calculate_expected_goals_involvement` to raw values: the `float`
conversions inside its `try` turn conversion failures into an absent
result. -/
def calc_involvement_val (g a t : PyVal) : Option ℚ :=
  match toFloat? g, toFloat? a, toFloat? t with
  | Option.some gq, Option.some aq, Option.some tq =>
      calculate_expected_goals_involvement gq aq tq
  | _, _, _ => Option.none

/-- One raw API record of the players endpoint: the `player` and `stats`
sub-objects (`item.get('player', {})` defaults an absent sub-object to the
empty dictionary). -/
structure RawItem where
  player : Option Dict
  stats : Option Dict
deriving DecidableEq, Repr

/-- The per-run processing counters of `FFFPlayersParser` touched by
`_process_player_data`. -/
structure ProcStats where
  players_processed : Nat
  errors_encountered : Nat
deriving DecidableEq, Repr

/-- The required subject fields checked by `_process_player_data`
(`players.py` line 195). -/
def required_fields : List String :=
  ["code", "known_name", "team_short_name", "position_name", "price"]

/-- Outcome of `_process_player_data`'s loop body on one raw item: a skip on
missing required fields (`continue`, line 203), an exception caught by the
`except` branch (lines 255–258), or a processed `(key, record)` pair. -/
inductive ItemResult where
  | skip
  | err
  | ok (key : PyVal × PyVal) (record : Dict)
deriving DecidableEq, Repr

/-- Metric pruning of `_process_player_data` (lines 224–229): keep exactly the
stats whose key appears in the configured column order, in stats order. -/
def filter_stats (order : List String) (stats_info : Dict) : Dict :=
  stats_info.foldl (fun acc kv => if kv.1 ∈ order then dinsert acc kv.1 kv.2 else acc) []

/-- Record assembly of `_process_player_data` (lines 231–244): the literal
fields followed by the splice of the filtered stats. -/
def build_record (known_name playerId abbr : PyVal) (position : String)
    (price expGA : PyVal) (invol : Option ℚ) (gw : Int) (venue : String)
    (game_started : PyVal) (filtered : Dict) : Dict :=
  let base : Dict :=
    [("known_name", known_name), ("playerId", playerId), ("abbr", abbr),
     ("position", .str position), ("price", price), ("expGA", expGA),
     ("exp_goals_involvement",
       match invol with | Option.some q => .float q | Option.none => PyVal.none),
     ("gw", .int gw), ("venue", .str venue), ("game_started", game_started)]
  filtered.foldl (fun acc kv => dinsert acc kv.1 kv.2) base

/-- Embeds the body of `_process_player_data`'s loop (`players.py`
lines 188–258) on one raw item. -/
def process_one (order : List String) (min_gw : Int) (venue : String)
    (item : RawItem) : ItemResult :=
  let player_info := item.player.getD []
  let stats_info := item.stats.getD []
  if required_fields.any (fun f => (dget? player_info f).isNone) then .skip
  else
    let playerId := (dget? player_info "code").getD PyVal.none
    let known_name := (dget? player_info "known_name").getD PyVal.none
    let abbr := (dget? player_info "team_short_name").getD PyVal.none
    let position := format_position_any ((dget? player_info "position_name").getD PyVal.none)
    let price := (dget? player_info "price").getD PyVal.none
    let game_started := (dget? stats_info "game_started").getD (.int 0)
    let exp_goals := pyOr0 ((dget? stats_info "exp_goals").getD (.int 0))
    let exp_assists := pyOr0 ((dget? stats_info "exp_assists").getD (.int 0))
    match pyAdd exp_goals exp_assists with
    | Option.none => .err
    | Option.some expGA =>
      let exp_goals_team := pyOr0 ((dget? stats_info "exp_goals_team").getD (.int 0))
      let invol := calc_involvement_val exp_goals exp_assists exp_goals_team
      let filtered := filter_stats order stats_info
      let record := build_record known_name playerId abbr position price expGA
        invol min_gw venue game_started filtered
      .ok (known_name, abbr) (validate_player_data record)

/-- The batch mapping built by `_process_player_data`, keyed by the raw
`(known_name, team_short_name)` pair. -/
abbrev PlayerMap := List ((PyVal × PyVal) × Dict)

/-- One loop iteration of `_process_player_data`: a skip leaves everything
unchanged, an exception bumps only the error counter, a processed record is
inserted under its identity key and bumps the processed counter. -/
def process_item (order : List String) (min_gw : Int) (venue : String)
    (st : PlayerMap × ProcStats) (item : RawItem) : PlayerMap × ProcStats :=
  match process_one order min_gw venue item with
  | .skip => st
  | .err => (st.1, { st.2 with errors_encountered := st.2.errors_encountered + 1 })
  | .ok key record =>
      (dinsert st.1 key record,
       { st.2 with players_processed := st.2.players_processed + 1 })

/-- Embeds `players.py::FFFPlayersParser._process_player_data`
(lines 170–261): fold the loop body over the batch, starting from a fresh
empty mapping and the parser's current counters. -/
def process_player_data (order : List String) (stats : List RawItem)
    (min_gw : Int) (venue : String) (ps : ProcStats) : PlayerMap × ProcStats :=
  stats.foldl (process_item order min_gw venue) ([], ps)

/-- Saving of one batch, `players.py::FFFPlayersParser._save_data`
(lines 263–287) for a single result file: append the mapping's values, in
insertion order, to the rows already written. -/
def save_data (csv : List Dict) (data : PlayerMap) : List Dict :=
  csv ++ data.map (fun kv => kv.2)

/-- Embeds the data path of `players.py::FFFPlayersParser.parse_gameweek_range`
(lines 289–337): a failed fetch saves nothing, an empty processed mapping
saves nothing, otherwise the fresh batch mapping is saved after the rows of
earlier calls.  The request/counter bookkeeping of the stats client is
modelled separately by `get_players_statsS`. -/
def parse_gameweek_range_save (order : List String) (csv : List Dict)
    (stats : Option (List RawItem)) (min_gw : Int) (venue : String)
    (ps : ProcStats) : List Dict × ProcStats :=
  match stats with
  | Option.none => (csv, ps)
  | Option.some st =>
      let r := process_player_data order st min_gw venue ps
      if r.1 = [] then (csv, r.2) else (save_data csv r.1, r.2)

/-- The running request counters of `FFFStatsClient` (`statistic.py`
lines 32–39), all zero on construction. -/
structure StatsState where
  requests_made : Nat
  successful_requests : Nat
  failed_requests : Nat
  total_players_fetched : Nat
  total_teams_fetched : Nat
deriving DecidableEq, Repr

/-- The counters of a freshly constructed client
(`FFFStatsClient.__init__`). -/
def init_stats : StatsState := ⟨0, 0, 0, 0, 0⟩

/-- What one underlying network fetch can yield, as observed by
`_make_request`: a list body, a non-list or empty body, or a raised
exception. -/
inductive ReqOutcome (α : Type) where
  | ok (data : List α)
  | notList
  | exn

/-- Embeds `statistic.py::FFFStatsClient._make_request` (lines 41–84):
count the attempt, then classify the outcome — a non-empty list is a success
and is returned, anything else (empty, non-list, exception) is a failure
yielding an absent result. -/
def make_request {α : Type} (st : StatsState) (out : ReqOutcome α) :
    StatsState × Option (List α) :=
  let st := { st with requests_made := st.requests_made + 1 }
  match out with
  | .ok data =>
      if data.isEmpty then
        ({ st with failed_requests := st.failed_requests + 1 }, Option.none)
      else
        ({ st with successful_requests := st.successful_requests + 1 }, Option.some data)
  | .notList => ({ st with failed_requests := st.failed_requests + 1 }, Option.none)
  | .exn => ({ st with failed_requests := st.failed_requests + 1 }, Option.none)

/-- Modelled from the spec: `common_modules.validate_required_fields` (not
under `src/`) — required-field presence; it reports the names of the required
parameters that are absent. -/
def validate_required_fieldsM (min_gw max_gw : Option Int)
    (venue season : Option String) : List String :=
  (if min_gw.isNone then ["min_gw"] else []) ++
  (if max_gw.isNone then ["max_gw"] else []) ++
  (if venue.isNone then ["venue"] else []) ++
  (if season.isNone then ["season"] else [])

/-- The players URL built by `get_players_stats` (lines 134–137). -/
def players_url (api season : String) (min_gw max_gw : Int) (venue : String) :
    String :=
  api ++ "/players/?season=" ++ season ++ "&min_gw=" ++ toString min_gw ++
    "&max_gw=" ++ toString max_gw ++ "&home_away=" ++ venue

/-- The teams URL built by `get_teams_stats` (lines 198–201). -/
def teams_url (api season : String) (min_gw max_gw : Int) (venue : String) :
    String :=
  api ++ "/teams/?season=" ++ season ++ "&min_gw=" ++ toString min_gw ++
    "&max_gw=" ++ toString max_gw ++ "&home_away=" ++ venue ++ "&opposition=ALL"

/-- Embeds `statistic.py::FFFStatsClient.get_players_stats` (lines 86–148)
against an abstract network `req` mapping the requested URL to its outcome:
pre-flight validation (required fields, gameweek range, ordering, venue) fails
fast with an absent result and an untouched state; a valid call performs the
request and adds any fetched count. -/
def get_players_statsS {α : Type} (api : String) (req : String → ReqOutcome α)
    (st : StatsState) (min_gw max_gw : Option Int) (venue season : Option String) :
    StatsState × Option (List α) :=
  if validate_required_fieldsM min_gw max_gw venue season ≠ [] then (st, Option.none)
  else
    match min_gw, max_gw, venue, season with
    | Option.some mn, Option.some mx, Option.some v, Option.some sn =>
      if ¬(1 ≤ mn ∧ mn ≤ 38) ∨ ¬(1 ≤ mx ∧ mx ≤ 38) then (st, Option.none)
      else if mx < mn then (st, Option.none)
      else if ¬(v = "home/away" ∨ v = "home" ∨ v = "away") then (st, Option.none)
      else
        match make_request st (req (players_url api sn mn mx v)) with
        | (st1, Option.some data) =>
            ({ st1 with total_players_fetched := st1.total_players_fetched + data.length },
             Option.some data)
        | (st1, Option.none) => (st1, Option.none)
    | _, _, _, _ => (st, Option.none)

/-- Embeds `statistic.py::FFFStatsClient.get_teams_stats` (lines 150–212),
identical validation with the teams URL and the teams fetched counter. -/
def get_teams_statsS {α : Type} (api : String) (req : String → ReqOutcome α)
    (st : StatsState) (min_gw max_gw : Option Int) (venue season : Option String) :
    StatsState × Option (List α) :=
  if validate_required_fieldsM min_gw max_gw venue season ≠ [] then (st, Option.none)
  else
    match min_gw, max_gw, venue, season with
    | Option.some mn, Option.some mx, Option.some v, Option.some sn =>
      if ¬(1 ≤ mn ∧ mn ≤ 38) ∨ ¬(1 ≤ mx ∧ mx ≤ 38) then (st, Option.none)
      else if mx < mn then (st, Option.none)
      else if ¬(v = "home/away" ∨ v = "home" ∨ v = "away") then (st, Option.none)
      else
        match make_request st (req (teams_url api sn mn mx v)) with
        | (st1, Option.some data) =>
            ({ st1 with total_teams_fetched := st1.total_teams_fetched + data.length },
             Option.some data)
        | (st1, Option.none) => (st1, Option.none)
    | _, _, _, _ => (st, Option.none)

/-- The validity condition exactly as the specification words it: all four
fields present, `1 <= min_gw <= max_gw <= 38`, venue one of the three
literals.  Stated from the spec for comparison against the source-derived
validation. -/
def claim_valid (min_gw max_gw : Option Int) (venue season : Option String) : Bool :=
  match min_gw, max_gw, venue, season with
  | Option.some mn, Option.some mx, Option.some v, Option.some _ =>
      decide (1 ≤ mn) && decide (mn ≤ mx) && decide (mx ≤ 38) &&
        (v == "home/away" || v == "home" || v == "away")
  | _, _, _, _ => false

/-- One client call of a run, with its parameters and the network outcome the
run would observe for the URL it requests. -/
inductive ClientCall where
  | players (req : String → ReqOutcome RawItem) (min_gw max_gw : Option Int)
      (venue season : Option String)
  | teams (req : String → ReqOutcome RawItem) (min_gw max_gw : Option Int)
      (venue season : Option String)

/-- State effect of one `get_players_stats`/`get_teams_stats` call. -/
def run_call (api : String) (st : StatsState) (c : ClientCall) : StatsState :=
  match c with
  | .players req mg mx v s => (get_players_statsS api req st mg mx v s).1
  | .teams req mg mx v s => (get_teams_statsS api req st mg mx v s).1

/-- A sequence of client calls against one client instance. -/
def run_calls (api : String) (st : StatsState) (cs : List ClientCall) : StatsState :=
  cs.foldl (run_call api) st

/-- The counter equation of the claim: every attempt is classified as exactly
one of success or failure. -/
def counter_eq (st : StatsState) : Prop :=
  st.requests_made = st.successful_requests + st.failed_requests

/-- The summary reported by `get_stats_summary`: the stored counters plus the
computed success rate. -/
structure StatsSummary where
  requests_made : Nat
  successful_requests : Nat
  failed_requests : Nat
  total_players_fetched : Nat
  total_teams_fetched : Nat
  success_rate_percent : ℚ
deriving DecidableEq, Repr

/-- Embeds `statistic.py::FFFStatsClient.get_stats_summary` (lines 214–228):
rate zero when no request was made, else the rounded percentage, alongside
every stored counter. -/
def get_stats_summary (st : StatsState) : StatsSummary :=
  let success_rate : ℚ :=
    if st.requests_made > 0 then
      ((st.successful_requests : ℚ) / (st.requests_made : ℚ)) * 100
    else 0
  ⟨st.requests_made, st.successful_requests, st.failed_requests,
   st.total_players_fetched, st.total_teams_fetched, pyRound success_rate 2⟩

/-- The login POST response as observed by `_perform_login`. -/
structure LoginResponse where
  status_code : Int
  text : String
  url : String

/-- Does the list start with the given pattern? -/
def startsWithSub : List Char → List Char → Bool
  | _, [] => true
  | [], _ :: _ => false
  | c :: s, d :: sub => c = d && startsWithSub s sub

/-- Substring occurrence over character lists. -/
def containsSub : List Char → List Char → Bool
  | [], sub => sub.isEmpty
  | c :: rest, sub => startsWithSub (c :: rest) sub || containsSub rest sub

/-- Python's `sub in s` on strings: membership of a substring; the empty
needle is always contained. -/
def str_contains (s sub : String) : Bool :=
  containsSub s.data sub.data

/-- One authentication attempt's environment: whether the CSRF fetch
succeeded, the login response, the accumulated cookie jar, and the result of
the live verification probe. -/
structure AuthEnv where
  csrf_ok : Bool
  login_resp : LoginResponse
  cookies : List (String × String)
  verify_result : Bool

/-- Embeds the login-success decision of `auth.py::FFFAuth._perform_login`
(lines 107–129): on a 200 response, the explicit invalid-credentials marker
fails first, then a redirected URL succeeds, then dashboard/logout content
succeeds, otherwise the live verification decides; a non-200 status fails. -/
def login_decision (login_url : String) (resp : LoginResponse) (verify : Bool) :
    Bool :=
  if resp.status_code = 200 then
    if str_contains resp.text "Invalid email or password" then false
    else if resp.url ≠ login_url then true
    else if str_contains (pyLower resp.text) "dashboard" ||
         str_contains (pyLower resp.text) "logout" then true
    else verify
  else false

/-- Embeds `auth.py::FFFAuth._extract_session_id` (lines 135–155): scan the
cookie jar for the `sessionid` cookie. -/
def extract_session_id (cookies : List (String × String)) : Option String :=
  (cookies.find? (fun c => c.1 == "sessionid")).map (fun c => c.2)

/-- Embeds `auth.py::FFFAuth.authenticate` (lines 187–213): CSRF fetch, then
login, then session-cookie extraction, then verification; any stage failure
yields an absent result. -/
def authenticate_model (env : AuthEnv) (login_url : String) : Option String :=
  if env.csrf_ok = false then Option.none
  else if login_decision login_url env.login_resp env.verify_result = false then
    Option.none
  else
    match extract_session_id env.cookies with
    | Option.none => Option.none
    | Option.some sid => if env.verify_result then Option.some sid else Option.none

/-- The persisted session file contents, `{session_id, timestamp, email}`
(each read with `dict.get`, hence optional). -/
structure SessionFile where
  session_id : Option String
  timestamp : Option Int
  email : Option String
deriving DecidableEq, Repr

/-- The maximum session age of `load_session_from_file`
(`auth.py` line 280): 14 days in seconds. -/
def max_session_age : Int := 14 * 24 * 60 * 60

/-- Embeds `auth.py::FFFAuth.load_session_from_file` (lines 259–290) with the
ambient clock made explicit: an unreadable or empty file is absent; a stored
timestamp older than the maximum age is absent; otherwise the stored
`session_id` (absent when that key is missing). -/
def load_session_from_file (file : Option SessionFile) (now : Int) : Option String :=
  match file with
  | Option.none => Option.none
  | Option.some info =>
      if now - info.timestamp.getD 0 > max_session_age then Option.none
      else info.session_id

/-! Theorems. -/

theorem toFloat?_emptyStr : toFloat? (.str "") = Option.none := rfl

theorem formatNullVal_idem (v : PyVal) :
    formatNullVal (formatNullVal v) = formatNullVal v := by
  by_cases h0 : toFloat? v = Option.some 0
  · simp [formatNullVal, h0, toFloat?_emptyStr]
  · cases h : toFloat? v with
    | none => simp [formatNullVal, h]
    | some q =>
        have hq : ¬q = 0 := fun hq => h0 (by rw [h, hq])
        simp [formatNullVal, h, hq]

/-- C4: after null/zero formatting, every field whose value converts to the
number zero is replaced by the empty-string marker, every non-zero numeric
field is unchanged, and the operation is idempotent. -/
theorem format_null_data_spec (d : Dict) :
    (∀ k v, (k, v) ∈ d → toFloat? v = Option.some 0 →
       (k, PyVal.str "") ∈ format_null_data d) ∧
    (∀ k v q, (k, v) ∈ d → toFloat? v = Option.some q → q ≠ 0 →
       (k, v) ∈ format_null_data d) ∧
    format_null_data (format_null_data d) = format_null_data d := by
  refine ⟨fun k v hm h0 => ?_, fun k v q hm hq hq0 => ?_, ?_⟩
  · have : formatNullVal v = PyVal.str "" := by simp [formatNullVal, h0]
    exact this ▸ List.mem_map.2 ⟨(k, v), hm, rfl⟩
  · have : formatNullVal v = v := by simp [formatNullVal, hq, hq0]
    exact List.mem_map.2 ⟨(k, v), hm, by simp [this]⟩
  · simp only [format_null_data, List.map_map]
    exact List.map_congr_left fun a _ => by
      simp [Function.comp, formatNullVal_idem]

/-- Witness for C4 at a concrete record. -/
theorem format_null_data_spec_witness :
    ("a", PyVal.str "") ∈ format_null_data [("a", PyVal.int 0), ("b", PyVal.int 3)] ∧
    ("b", PyVal.int 3) ∈ format_null_data [("a", PyVal.int 0), ("b", PyVal.int 3)] :=
  ⟨(format_null_data_spec _).1 "a" (PyVal.int 0) (by decide) (by norm_num [toFloat?]),
   (format_null_data_spec _).2.1 "b" (PyVal.int 3) 3 (by decide) (by norm_num [toFloat?])
     (by norm_num)⟩

/-- Counterexample to C8 as stated: the all-lowercase string `"goalkeeper"`
is none of the four listed inputs, yet it is not returned verbatim — the
mapping is case-insensitive. -/
theorem format_position_counterexample :
    format_position "goalkeeper" = "GK" ∧
    ("goalkeeper" ≠ "Goalkeeper" ∧ "goalkeeper" ≠ "Defender" ∧
     "goalkeeper" ≠ "Midfielder" ∧ "goalkeeper" ≠ "Forward") ∧
    format_position "goalkeeper" ≠ "goalkeeper" := by decide

/-- C8 (amended): the four labels map to their codes, any string whose
cleaned lowercase form is one of the four position words maps to the
corresponding code, and every string whose cleaned lowercase form is none of
them is returned verbatim. -/
theorem format_position_amended :
    (format_position "Goalkeeper" = "GK" ∧ format_position "Defender" = "D" ∧
     format_position "Midfielder" = "M" ∧ format_position "Forward" = "F") ∧
    (∀ s, pyLower (clean_text s) = "goalkeeper" → format_position s = "GK") ∧
    (∀ s, pyLower (clean_text s) = "defender" → format_position s = "D") ∧
    (∀ s, pyLower (clean_text s) = "midfielder" → format_position s = "M") ∧
    (∀ s, pyLower (clean_text s) = "forward" → format_position s = "F") ∧
    (∀ s, pyLower (clean_text s) ∉
        (["goalkeeper", "defender", "midfielder", "forward"] : List String) →
      format_position s = s) := by
  refine ⟨⟨by decide, by decide, by decide, by decide⟩,
    fun s h => by simp [format_position, h],
    fun s h => by simp [format_position, h],
    fun s h => by simp [format_position, h],
    fun s h => by simp [format_position, h],
    fun s h => ?_⟩
  simp only [List.mem_cons, List.not_mem_nil, or_false, not_or] at h
  obtain ⟨h1, h2, h3, h4⟩ := h
  simp [format_position, h1, h2, h3, h4]

/-- Witness for C8: the case-insensitive clauses at concretely cased and
padded inputs, and the verbatim clause at an unmapped string. -/
theorem format_position_amended_witness :
    format_position "GOALKEEPER" = "GK" ∧ format_position " Defender " = "D" ∧
    format_position "MidFielder" = "M" ∧ format_position "FORWARD" = "F" ∧
    format_position "Striker" = "Striker" :=
  ⟨format_position_amended.2.1 "GOALKEEPER" (by decide),
   format_position_amended.2.2.1 " Defender " (by decide),
   format_position_amended.2.2.2.1 "MidFielder" (by decide),
   format_position_amended.2.2.2.2.1 "FORWARD" (by decide),
   format_position_amended.2.2.2.2.2 "Striker" (by decide)⟩

/-- C5: the expected-goals involvement is absent exactly on a zero team
total, equals the rounded percentage otherwise, never faults, and is
deterministic. -/
theorem exp_goals_involvement_spec (g a t : ℚ) :
    (t = 0 → calculate_expected_goals_involvement g a t = Option.none) ∧
    (t ≠ 0 → calculate_expected_goals_involvement g a t =
       Option.some (pyRound ((g + a) / t * 100) 2)) ∧
    calculate_expected_goals_involvement g a t =
      calculate_expected_goals_involvement g a t :=
  ⟨fun h => by simp [calculate_expected_goals_involvement, h],
   fun h => by simp [calculate_expected_goals_involvement, h], rfl⟩

unseal Rat.add Rat.mul Rat.inv Rat.sub Rat.ofScientific in
/-- Witness for C5 at the spec's example inputs. -/
theorem exp_goals_involvement_spec_witness :
    calculate_expected_goals_involvement 0.4 0.1 0 = Option.none ∧
    calculate_expected_goals_involvement 0.4 0.1 1 = Option.some 50 :=
  ⟨(exp_goals_involvement_spec 0.4 0.1 0).1 rfl,
   by rw [(exp_goals_involvement_spec 0.4 0.1 1).2.1 (by norm_num)]; decide⟩

/-- C7: loading a well-formed session file returns absent when the stored
timestamp is strictly older than 14 days and the stored id at or within the
boundary. -/
theorem load_session_age_policy (sid : String) (ts : Int) (em : Option String)
    (now : Int) :
    (now - ts > max_session_age →
       load_session_from_file
         (Option.some ⟨Option.some sid, Option.some ts, em⟩) now = Option.none) ∧
    (now - ts ≤ max_session_age →
       load_session_from_file
         (Option.some ⟨Option.some sid, Option.some ts, em⟩) now = Option.some sid) := by
  refine ⟨fun h => ?_, fun h => ?_⟩
  · simp only [load_session_from_file, Option.getD_some]
    rw [if_pos h]
  · simp only [load_session_from_file, Option.getD_some]
    rw [if_neg (by omega)]

/-- Witness for C7 on both sides of the 14-day boundary. -/
theorem load_session_age_policy_witness :
    load_session_from_file
      (Option.some ⟨Option.some "s", Option.some 0, Option.none⟩) 1209601 =
        Option.none ∧
    load_session_from_file
      (Option.some ⟨Option.some "s", Option.some 0, Option.none⟩) 1209600 =
        Option.some "s" :=
  ⟨(load_session_age_policy "s" 0 Option.none 1209601).1 (by decide),
   (load_session_age_policy "s" 0 Option.none 1209600).2 (by decide)⟩

/-- C6: a login response carrying the invalid-credentials marker makes the
whole authentication absent whatever the cookie jar holds, and the
login-success decision follows the fixed order marker-fail, redirect-success,
content-marker-success, live-verification fallback. -/
theorem login_marker_and_decision_order :
    (∀ (env : AuthEnv) (url : String),
        str_contains env.login_resp.text "Invalid email or password" = true →
        authenticate_model env url = Option.none) ∧
    (∀ (r : LoginResponse) (vb : Bool) (url : String), r.status_code = 200 →
        str_contains r.text "Invalid email or password" = true →
        login_decision url r vb = false) ∧
    (∀ (r : LoginResponse) (vb : Bool) (url : String), r.status_code = 200 →
        str_contains r.text "Invalid email or password" = false →
        r.url ≠ url → login_decision url r vb = true) ∧
    (∀ (r : LoginResponse) (vb : Bool) (url : String), r.status_code = 200 →
        str_contains r.text "Invalid email or password" = false → r.url = url →
        (str_contains (pyLower r.text) "dashboard" ||
          str_contains (pyLower r.text) "logout") = true →
        login_decision url r vb = true) ∧
    (∀ (r : LoginResponse) (vb : Bool) (url : String), r.status_code = 200 →
        str_contains r.text "Invalid email or password" = false → r.url = url →
        (str_contains (pyLower r.text) "dashboard" ||
          str_contains (pyLower r.text) "logout") = false →
        login_decision url r vb = vb) := by
  refine ⟨fun env url h => ?_, fun r vb url hs h => ?_, fun r vb url hs h hu => ?_,
    fun r vb url hs h hu hm => ?_, fun r vb url hs h hu hm => ?_⟩
  · have hdec : login_decision url env.login_resp env.verify_result = false := by
      simp [login_decision, h]
    simp [authenticate_model, hdec]
  · simp [login_decision, hs, h]
  · simp [login_decision, hs, h, hu]
  · simp [login_decision, hs, h, hu, hm]
  · simp only [Bool.or_eq_false_iff] at hm
    simp [login_decision, hs, h, hu, hm.1, hm.2]

/-- Witness for C6: a marker-bearing response yields an absent result even
with a session cookie present and a succeeding verification probe. -/
theorem login_marker_witness :
    authenticate_model
      ⟨true, ⟨200, "error: Invalid email or password", "https://x/signin/"⟩,
       [("sessionid", "abc")], true⟩ "https://x/signin/" = Option.none :=
  login_marker_and_decision_order.1
    ⟨true, ⟨200, "error: Invalid email or password", "https://x/signin/"⟩,
     [("sessionid", "abc")], true⟩ "https://x/signin/" (by decide)

theorem pyRound_zero : pyRound 0 2 = 0 := by
  norm_num [pyRound, roundHalfEven]

/-- C10: the summary accessor is total — rate zero when no request was made,
the rounded percentage otherwise — and passes every stored counter through
unchanged. -/
theorem stats_summary_spec (st : StatsState) :
    (st.requests_made = 0 → (get_stats_summary st).success_rate_percent = 0) ∧
    (0 < st.requests_made → (get_stats_summary st).success_rate_percent =
       pyRound ((st.successful_requests : ℚ) / (st.requests_made : ℚ) * 100) 2) ∧
    (get_stats_summary st).requests_made = st.requests_made ∧
    (get_stats_summary st).successful_requests = st.successful_requests ∧
    (get_stats_summary st).failed_requests = st.failed_requests ∧
    (get_stats_summary st).total_players_fetched = st.total_players_fetched ∧
    (get_stats_summary st).total_teams_fetched = st.total_teams_fetched := by
  refine ⟨fun h => ?_, fun h => ?_, rfl, rfl, rfl, rfl, rfl⟩
  · simp [get_stats_summary, h, pyRound_zero]
  · simp [get_stats_summary, h]

/-- Witness for C10 on the fresh client and on a non-zero state. -/
theorem stats_summary_spec_witness :
    (get_stats_summary init_stats).success_rate_percent = 0 ∧
    (get_stats_summary ⟨4, 3, 1, 0, 0⟩).success_rate_percent =
      pyRound (((3 : Nat) : ℚ) / ((4 : Nat) : ℚ) * 100) 2 :=
  ⟨(stats_summary_spec init_stats).1 rfl,
   (stats_summary_spec ⟨4, 3, 1, 0, 0⟩).2.1 (by decide)⟩

theorem make_request_requests {α : Type} (st : StatsState) (out : ReqOutcome α) :
    (make_request st out).1.requests_made = st.requests_made + 1 := by
  cases out with
  | ok data => by_cases h : data.isEmpty <;> simp [make_request, h]
  | notList => simp [make_request]
  | exn => simp [make_request]

theorem make_request_split {α : Type} (st : StatsState) (out : ReqOutcome α) :
    ((make_request st out).1.successful_requests = st.successful_requests + 1 ∧
     (make_request st out).1.failed_requests = st.failed_requests) ∨
    ((make_request st out).1.failed_requests = st.failed_requests + 1 ∧
     (make_request st out).1.successful_requests = st.successful_requests) := by
  cases out with
  | ok data =>
      by_cases h : data.isEmpty
      · exact Or.inr (by simp [make_request, h])
      · exact Or.inl (by simp [make_request, h])
  | notList => exact Or.inr (by simp [make_request])
  | exn => exact Or.inr (by simp [make_request])

theorem make_request_preserves {α : Type} (st : StatsState) (out : ReqOutcome α)
    (h : counter_eq st) : counter_eq (make_request st out).1 := by
  have h1 := make_request_requests st out
  rcases make_request_split st out with ⟨hs, hf⟩ | ⟨hf, hs⟩ <;>
    · unfold counter_eq at *; omega

theorem get_players_statsS_preserves {α : Type} (api : String)
    (req : String → ReqOutcome α) (st : StatsState) (mg mx : Option Int)
    (v s : Option String) (h : counter_eq st) :
    counter_eq (get_players_statsS api req st mg mx v s).1 := by
  unfold get_players_statsS
  split
  · exact h
  · match mg, mx, v, s with
    | Option.some mn, Option.some mxx, Option.some vv, Option.some sn =>
        dsimp only
        split
        · exact h
        split
        · exact h
        split
        · exact h
        have hp := make_request_preserves st (req (players_url api sn mn mxx vv)) h
        rcases hm : make_request st (req (players_url api sn mn mxx vv)) with ⟨st1, d⟩
        rw [hm] at hp
        cases d <;> simp_all [counter_eq]
    | Option.none, _, _, _ => simp_all [validate_required_fieldsM]
    | Option.some _, Option.none, _, _ => simp_all [validate_required_fieldsM]
    | Option.some _, Option.some _, Option.none, _ =>
        simp_all [validate_required_fieldsM]
    | Option.some _, Option.some _, Option.some _, Option.none =>
        simp_all [validate_required_fieldsM]

theorem get_teams_statsS_preserves {α : Type} (api : String)
    (req : String → ReqOutcome α) (st : StatsState) (mg mx : Option Int)
    (v s : Option String) (h : counter_eq st) :
    counter_eq (get_teams_statsS api req st mg mx v s).1 := by
  unfold get_teams_statsS
  split
  · exact h
  · match mg, mx, v, s with
    | Option.some mn, Option.some mxx, Option.some vv, Option.some sn =>
        dsimp only
        split
        · exact h
        split
        · exact h
        split
        · exact h
        have hp := make_request_preserves st (req (teams_url api sn mn mxx vv)) h
        rcases hm : make_request st (req (teams_url api sn mn mxx vv)) with ⟨st1, d⟩
        rw [hm] at hp
        cases d <;> simp_all [counter_eq]
    | Option.none, _, _, _ => simp_all [validate_required_fieldsM]
    | Option.some _, Option.none, _, _ => simp_all [validate_required_fieldsM]
    | Option.some _, Option.some _, Option.none, _ =>
        simp_all [validate_required_fieldsM]
    | Option.some _, Option.some _, Option.some _, Option.none =>
        simp_all [validate_required_fieldsM]

theorem run_call_preserves (api : String) (st : StatsState) (c : ClientCall)
    (h : counter_eq st) : counter_eq (run_call api st c) := by
  cases c with
  | players req mg mx v s => exact get_players_statsS_preserves api req st mg mx v s h
  | teams req mg mx v s => exact get_teams_statsS_preserves api req st mg mx v s h

theorem run_calls_preserves (api : String) (cs : List ClientCall) :
    ∀ st : StatsState, counter_eq st → counter_eq (run_calls api st cs) := by
  induction cs with
  | nil => exact fun st h => h
  | cons c cs ih =>
      exact fun st h => ih (run_call api st c) (run_call_preserves api st c h)

/-- C9: each completed underlying request counts the attempt and exactly one
of success or failure, so from a fresh client every sequence of
player/team-stats calls keeps `requests_made` equal to
`successful_requests + failed_requests`. -/
theorem request_counter_invariant :
    (∀ (α : Type) (st : StatsState) (out : ReqOutcome α),
        (make_request st out).1.requests_made = st.requests_made + 1 ∧
        (((make_request st out).1.successful_requests = st.successful_requests + 1 ∧
          (make_request st out).1.failed_requests = st.failed_requests) ∨
         ((make_request st out).1.failed_requests = st.failed_requests + 1 ∧
          (make_request st out).1.successful_requests = st.successful_requests))) ∧
    (∀ (α : Type) (st : StatsState) (out : ReqOutcome α),
        counter_eq st → counter_eq (make_request st out).1) ∧
    (∀ (api : String) (cs : List ClientCall),
        counter_eq (run_calls api init_stats cs)) :=
  ⟨fun α st out => ⟨make_request_requests st out, make_request_split st out⟩,
   fun α st out h => make_request_preserves st out h,
   fun api cs => run_calls_preserves api cs init_stats rfl⟩

/-- Witness for C9 (its only hypothesis is the preserved equation): one
concrete failed request keeps the counter equation. -/
theorem request_counter_invariant_witness :
    counter_eq (make_request init_stats (ReqOutcome.exn (α := RawItem))).1 :=
  request_counter_invariant.2.1 RawItem init_stats ReqOutcome.exn rfl

theorem claim_valid_some (mn mxx : Int) (vv sn : String) :
    claim_valid (Option.some mn) (Option.some mxx) (Option.some vv) (Option.some sn) = true ↔
      (1 ≤ mn ∧ mn ≤ mxx ∧ mxx ≤ 38 ∧
        (vv = "home/away" ∨ vv = "home" ∨ vv = "away")) := by
  simp [claim_valid, Bool.and_eq_true, decide_eq_true_eq, Bool.or_eq_true, beq_iff_eq]
  tauto

theorem get_players_statsS_valid {α : Type} (api : String)
    (req : String → ReqOutcome α) (st : StatsState) (mn mxx : Int) (vv sn : String)
    (h1 : 1 ≤ mn) (h2 : mn ≤ mxx) (h3 : mxx ≤ 38)
    (hv : vv = "home/away" ∨ vv = "home" ∨ vv = "away") :
    (get_players_statsS api req st (Option.some mn) (Option.some mxx)
        (Option.some vv) (Option.some sn)).2 =
      (make_request st (req (players_url api sn mn mxx vv))).2 ∧
    (get_players_statsS api req st (Option.some mn) (Option.some mxx)
        (Option.some vv) (Option.some sn)).1.requests_made = st.requests_made + 1 := by
  simp only [get_players_statsS]
  rw [if_neg (by simp [validate_required_fieldsM])]
  rw [if_neg (by omega), if_neg (by omega), if_neg (by simp [hv])]
  have hr := make_request_requests st (req (players_url api sn mn mxx vv))
  rcases hm : make_request st (req (players_url api sn mn mxx vv)) with ⟨st1, d⟩
  rw [hm] at hr
  simp only at hr
  cases d <;> simp [hm, hr]

theorem get_teams_statsS_valid {α : Type} (api : String)
    (req : String → ReqOutcome α) (st : StatsState) (mn mxx : Int) (vv sn : String)
    (h1 : 1 ≤ mn) (h2 : mn ≤ mxx) (h3 : mxx ≤ 38)
    (hv : vv = "home/away" ∨ vv = "home" ∨ vv = "away") :
    (get_teams_statsS api req st (Option.some mn) (Option.some mxx)
        (Option.some vv) (Option.some sn)).2 =
      (make_request st (req (teams_url api sn mn mxx vv))).2 ∧
    (get_teams_statsS api req st (Option.some mn) (Option.some mxx)
        (Option.some vv) (Option.some sn)).1.requests_made = st.requests_made + 1 := by
  simp only [get_teams_statsS]
  rw [if_neg (by simp [validate_required_fieldsM])]
  rw [if_neg (by omega), if_neg (by omega), if_neg (by simp [hv])]
  have hr := make_request_requests st (req (teams_url api sn mn mxx vv))
  rcases hm : make_request st (req (teams_url api sn mn mxx vv)) with ⟨st1, d⟩
  rw [hm] at hr
  simp only at hr
  cases d <;> simp [hm, hr]

theorem get_players_statsS_invalid {α : Type} (api : String)
    (req : String → ReqOutcome α) (st : StatsState) (mg mx : Option Int)
    (v s : Option String) (h : claim_valid mg mx v s = false) :
    get_players_statsS api req st mg mx v s = (st, Option.none) := by
  cases mg with
  | none => simp [get_players_statsS, validate_required_fieldsM]
  | some mn =>
    cases mx with
    | none => simp [get_players_statsS, validate_required_fieldsM]
    | some mxx =>
      cases v with
      | none => simp [get_players_statsS, validate_required_fieldsM]
      | some vv =>
        cases s with
        | none => simp [get_players_statsS, validate_required_fieldsM]
        | some sn =>
          have hn : ¬(1 ≤ mn ∧ mn ≤ mxx ∧ mxx ≤ 38 ∧
              (vv = "home/away" ∨ vv = "home" ∨ vv = "away")) := by
            rw [← claim_valid_some mn mxx vv sn]
            simp [h]
          simp only [get_players_statsS]
          rw [if_neg (by simp [validate_required_fieldsM])]
          by_cases hr : ¬(1 ≤ mn ∧ mn ≤ 38) ∨ ¬(1 ≤ mxx ∧ mxx ≤ 38)
          · rw [if_pos hr]
          · rw [if_neg hr]
            push_neg at hr
            by_cases ho : mxx < mn
            · rw [if_pos ho]
            · rw [if_neg ho]
              have hvv : ¬(vv = "home/away" ∨ vv = "home" ∨ vv = "away") :=
                fun hcon => hn ⟨hr.1.1, by omega, hr.2.2, hcon⟩
              rw [if_pos hvv]

theorem get_teams_statsS_invalid {α : Type} (api : String)
    (req : String → ReqOutcome α) (st : StatsState) (mg mx : Option Int)
    (v s : Option String) (h : claim_valid mg mx v s = false) :
    get_teams_statsS api req st mg mx v s = (st, Option.none) := by
  cases mg with
  | none => simp [get_teams_statsS, validate_required_fieldsM]
  | some mn =>
    cases mx with
    | none => simp [get_teams_statsS, validate_required_fieldsM]
    | some mxx =>
      cases v with
      | none => simp [get_teams_statsS, validate_required_fieldsM]
      | some vv =>
        cases s with
        | none => simp [get_teams_statsS, validate_required_fieldsM]
        | some sn =>
          have hn : ¬(1 ≤ mn ∧ mn ≤ mxx ∧ mxx ≤ 38 ∧
              (vv = "home/away" ∨ vv = "home" ∨ vv = "away")) := by
            rw [← claim_valid_some mn mxx vv sn]
            simp [h]
          simp only [get_teams_statsS]
          rw [if_neg (by simp [validate_required_fieldsM])]
          by_cases hr : ¬(1 ≤ mn ∧ mn ≤ 38) ∨ ¬(1 ≤ mxx ∧ mxx ≤ 38)
          · rw [if_pos hr]
          · rw [if_neg hr]
            push_neg at hr
            by_cases ho : mxx < mn
            · rw [if_pos ho]
            · rw [if_neg ho]
              have hvv : ¬(vv = "home/away" ∨ vv = "home" ∨ vv = "away") :=
                fun hcon => hn ⟨hr.1.1, by omega, hr.2.2, hcon⟩
              rw [if_pos hvv]

/-- C3: parameters that are all present with `1 <= min_gw <= max_gw <= 38`
and a venue among the three literals are accepted and proceed to the request
on the built URL; every other combination yields an absent result with the
client state untouched and no dependence on the network, for players and
teams alike. -/
theorem stats_params_validation (api : String)
    (req req2 treq treq2 : String → ReqOutcome RawItem) (st : StatsState)
    (mg mx : Option Int) (v s : Option String) :
    (claim_valid mg mx v s = true →
       ∃ mn mxx vv sn, mg = Option.some mn ∧ mx = Option.some mxx ∧
         v = Option.some vv ∧ s = Option.some sn ∧
         (get_players_statsS api req st mg mx v s).2 =
           (make_request st (req (players_url api sn mn mxx vv))).2 ∧
         (get_teams_statsS api treq st mg mx v s).2 =
           (make_request st (treq (teams_url api sn mn mxx vv))).2 ∧
         (get_players_statsS api req st mg mx v s).1.requests_made =
           st.requests_made + 1 ∧
         (get_teams_statsS api treq st mg mx v s).1.requests_made =
           st.requests_made + 1) ∧
    (claim_valid mg mx v s = false →
       get_players_statsS api req st mg mx v s = (st, Option.none) ∧
       get_players_statsS api req2 st mg mx v s = (st, Option.none) ∧
       get_teams_statsS api treq st mg mx v s = (st, Option.none) ∧
       get_teams_statsS api treq2 st mg mx v s = (st, Option.none)) := by
  constructor
  · intro h
    match mg, mx, v, s with
    | Option.some mn, Option.some mxx, Option.some vv, Option.some sn =>
      obtain ⟨h1, h2, h3, hv⟩ := (claim_valid_some mn mxx vv sn).1 h
      obtain ⟨hp2, hp1⟩ := get_players_statsS_valid api req st mn mxx vv sn h1 h2 h3 hv
      obtain ⟨ht2, ht1⟩ := get_teams_statsS_valid api treq st mn mxx vv sn h1 h2 h3 hv
      exact ⟨mn, mxx, vv, sn, rfl, rfl, rfl, rfl, hp2, ht2, hp1, ht1⟩
    | Option.none, _, _, _ => simp [claim_valid] at h
    | Option.some _, Option.none, _, _ => simp [claim_valid] at h
    | Option.some _, Option.some _, Option.none, _ => simp [claim_valid] at h
    | Option.some _, Option.some _, Option.some _, Option.none =>
        simp [claim_valid] at h
  · intro h
    exact ⟨get_players_statsS_invalid api req st mg mx v s h,
      get_players_statsS_invalid api req2 st mg mx v s h,
      get_teams_statsS_invalid api treq st mg mx v s h,
      get_teams_statsS_invalid api treq2 st mg mx v s h⟩

/-- Witness for C3: a valid call counts one request; an inverted range is
rejected with the fresh state returned unchanged. -/
theorem stats_params_validation_witness :
    (get_players_statsS "https://x/api/stats" (fun _ => ReqOutcome.exn (α := RawItem))
        init_stats (Option.some 1) (Option.some 2) (Option.some "home")
        (Option.some "2024")).1.requests_made = 1 ∧
    get_players_statsS "https://x/api/stats" (fun _ => ReqOutcome.exn (α := RawItem))
        init_stats (Option.some 5) (Option.some 3) (Option.some "home")
        (Option.some "2024") = (init_stats, Option.none) := by
  constructor
  · obtain ⟨mn, mxx, vv, sn, _, _, _, _, _, _, hp, _⟩ :=
      (stats_params_validation "https://x/api/stats" (fun _ => ReqOutcome.exn)
        (fun _ => ReqOutcome.exn) (fun _ => ReqOutcome.exn) (fun _ => ReqOutcome.exn)
        init_stats (Option.some 1) (Option.some 2) (Option.some "home")
        (Option.some "2024")).1 (by decide)
    exact hp
  · exact ((stats_params_validation "https://x/api/stats" (fun _ => ReqOutcome.exn)
      (fun _ => ReqOutcome.exn) (fun _ => ReqOutcome.exn) (fun _ => ReqOutcome.exn)
      init_stats (Option.some 5) (Option.some 3) (Option.some "home")
      (Option.some "2024")).2 (by decide)).1

/-- Column whitelist used by the concrete two-call scenario. -/
def c1ord : List String := ["goals", "exp_goals"]

/-- Player sub-object shared by the two raw records of the scenario. -/
def c1player : Dict :=
  [("code", .int 1), ("known_name", .str "A. Smith"),
   ("team_short_name", .str "ARS"), ("position_name", .str "Forward"),
   ("price", .float 8.5)]

/-- Stats of the first call (gw=1). -/
def c1stats1 : Dict :=
  [("exp_goals", .float 0.4), ("exp_assists", .float 0.1),
   ("exp_goals_team", .float 1), ("game_started", .int 1)]

/-- Stats of the second call (gw=2), same identity. -/
def c1stats2 : Dict :=
  [("exp_goals", .float 0.2), ("exp_assists", .float 0.3),
   ("exp_goals_team", .float 2), ("game_started", .int 0)]

/-- Raw record of the gw=1 call. -/
def c1item1 : RawItem := ⟨Option.some c1player, Option.some c1stats1⟩

/-- Raw record of the gw=2 call, sharing the identity key of `c1item1`. -/
def c1item2 : RawItem := ⟨Option.some c1player, Option.some c1stats2⟩

/-- The persisted rows after the two successive calls. -/
def c1rows : List Dict :=
  (parse_gameweek_range_save c1ord
    (parse_gameweek_range_save c1ord [] (Option.some [c1item1]) 1 "home" ⟨0, 0⟩).1
    (Option.some [c1item2]) 2 "home" ⟨0, 0⟩).1

unseal Rat.add Rat.mul Rat.inv Rat.sub Rat.ofScientific in
/-- Counterexample to C1 as stated: two raw records sharing the identity
`(known_name, abbr)` normalized in two successive calls leave two persisted
entries for that identity — the gw=1 values survive next to the gw=2 values;
no cross-call mapping overwrites them. -/
theorem players_accumulation_counterexample :
    c1rows.length = 2 ∧
    dget? (c1rows.getD 0 []) "gw" = Option.some (PyVal.int 1) ∧
    dget? (c1rows.getD 1 []) "gw" = Option.some (PyVal.int 2) ∧
    dget? (c1rows.getD 0 []) "known_name" = dget? (c1rows.getD 1 []) "known_name" ∧
    dget? (c1rows.getD 0 []) "abbr" = dget? (c1rows.getD 1 []) "abbr" := by decide

/-- C1 (amended): within one call two records with the same identity key
collapse to exactly one entry holding the later record's values, while a
later call never merges into earlier output — it only appends rows after it. -/
theorem players_identity_last_write :
    (∀ (order : List String) (mg : Int) (venue : String) (i1 i2 : RawItem)
        (k : PyVal × PyVal) (r1 r2 : Dict) (ps : ProcStats),
        process_one order mg venue i1 = ItemResult.ok k r1 →
        process_one order mg venue i2 = ItemResult.ok k r2 →
        (process_player_data order [i1, i2] mg venue ps).1 = [(k, r2)]) ∧
    (∀ (order : List String) (csv : List Dict) (stats : Option (List RawItem))
        (mg : Int) (venue : String) (ps : ProcStats),
        ∃ rows, (parse_gameweek_range_save order csv stats mg venue ps).1 =
          csv ++ rows) := by
  constructor
  · intro order mg venue i1 i2 k r1 r2 ps h1 h2
    simp [process_player_data, process_item, h1, h2, dinsert]
  · intro order csv stats mg venue ps
    cases stats with
    | none => exact ⟨[], by simp [parse_gameweek_range_save]⟩
    | some l =>
        by_cases h : (process_player_data order l mg venue ps).1 = []
        · exact ⟨[], by simp [parse_gameweek_range_save, h]⟩
        · exact ⟨(process_player_data order l mg venue ps).1.map (fun kv => kv.2),
            by simp [parse_gameweek_range_save, h, save_data]⟩

/-- Normalized record of `c1item1` in a gw=1 call. -/
def c1rec1 : Dict :=
  [("known_name", .str "A Smith"), ("playerId", .int 1), ("abbr", .str "ARS"),
   ("position", .str "F"), ("price", .float (17 / 2)), ("expGA", .float (1 / 2)),
   ("exp_goals_involvement", .float 50), ("gw", .int 1), ("venue", .str "home"),
   ("game_started", .int 1), ("exp_goals", .float (2 / 5))]

/-- Normalized record of `c1item2` in a gw=1 call. -/
def c1rec2 : Dict :=
  [("known_name", .str "A Smith"), ("playerId", .int 1), ("abbr", .str "ARS"),
   ("position", .str "F"), ("price", .float (17 / 2)), ("expGA", .float (1 / 2)),
   ("exp_goals_involvement", .float 25), ("gw", .int 1), ("venue", .str "home"),
   ("game_started", .str ""), ("exp_goals", .float (1 / 5))]

unseal Rat.add Rat.mul Rat.inv Rat.sub Rat.ofScientific in
/-- Witness for C1 within a single batch: the shared identity keeps exactly
the later record. -/
theorem players_identity_last_write_witness :
    (process_player_data c1ord [c1item1, c1item2] 1 "home" ⟨0, 0⟩).1 =
      [((PyVal.str "A. Smith", PyVal.str "ARS"), c1rec2)] :=
  players_identity_last_write.1 c1ord 1 "home" c1item1 c1item2
    (PyVal.str "A. Smith", PyVal.str "ARS") c1rec1 c1rec2 ⟨0, 0⟩
    (by decide) (by decide)

/-- Column whitelist of the missing-field scenario. -/
def c2ord : List String := ["goals"]

/-- A raw record whose player sub-object lacks the required `price` field. -/
def c2bad : RawItem :=
  ⟨Option.some [("code", .int 7), ("known_name", .str "B"),
     ("team_short_name", .str "CHE"), ("position_name", .str "Defender")],
   Option.some []⟩

/-- Counterexample to C2 as stated: a record missing a required field adds
zero entries but leaves the error counter at zero — it is not counted. -/
theorem missing_field_counterexample :
    process_player_data c2ord [c2bad] 1 "home" ⟨0, 0⟩ = ([], ⟨0, 0⟩) := by decide

/-- C2 (amended): a record missing a required subject field contributes
nothing — no entry and no counter change — and the batch result is exactly
that of the batch without it; the error counter moves only on records whose
processing raises. -/
theorem missing_field_skip (order : List String) (mg : Int) (venue : String)
    (item : RawItem) (pre post : List RawItem) (ps : ProcStats)
    (h : ∃ f ∈ required_fields, dget? (item.player.getD []) f = Option.none) :
    process_player_data order (pre ++ item :: post) mg venue ps =
      process_player_data order (pre ++ post) mg venue ps := by
  have hone : process_one order mg venue item = ItemResult.skip := by
    obtain ⟨f, hf, hnone⟩ := h
    unfold process_one
    rw [if_pos (List.any_eq_true.2 ⟨f, hf, by simp [hnone]⟩)]
  have hitem : ∀ st, process_item order mg venue st item = st := fun st => by
    simp [process_item, hone]
  simp [process_player_data, List.foldl_append, hitem]

/-- Witness for C2: the missing-price record leaves the batch result exactly
as if it were absent. -/
theorem missing_field_skip_witness :
    process_player_data c2ord ([] ++ c2bad :: []) 1 "home" ⟨0, 0⟩ =
      process_player_data c2ord ([] ++ []) 1 "home" ⟨0, 0⟩ :=
  missing_field_skip c2ord 1 "home" c2bad [] [] ⟨0, 0⟩
    ⟨"price", by decide, by decide⟩
